import Mathlib

/-
  Verification of the SpendGuard policy RAG tool
  (src/langflow/adk_policy_tool.py) against its specification.

  The Python module is shallowly embedded below.  JSON-like dynamic values
  are modelled by `JVal`; Python operations that can raise (`list[i]`,
  `dict.get` on a non-dict, `len`, slicing, `sum`) live in `Except PyErr`.
  Numbers are modelled by `ℚ` (the module only ever adds and divides
  similarity scores, so rational arithmetic is faithful to the values the
  claims speak about).  The exact text of CPython exception messages is
  approximated in `PyErr.message`; no claim depends on those texts.
-/

set_option autoImplicit false
set_option linter.unusedVariables false

namespace SpendGuard

/-- A JSON-like dynamic value, the shape of LangFlow request/response data. -/
inductive JVal where
  | null
  | bool (b : Bool)
  | num (q : ℚ)
  | str (s : String)
  | arr (xs : List JVal)
  | obj (fs : List (String × JVal))

/-- The kinds of exception the embedded Python code can raise. -/
inductive PyErr where
  | indexError
  | attrError
  | keyError
  | typeError
  deriving DecidableEq

/-- Approximation of CPython's `str(e)` for the exceptions above.  The only
message any theorem inspects is the `IndexError` one. -/
def PyErr.message : PyErr → String
  | .indexError => "list index out of range"
  | .attrError => "object has no attribute"
  | .keyError => "key error"
  | .typeError => "type error"

/-- First-match lookup in an association list, as in a Python dict whose keys
are unique. -/
def lookupField : List (String × JVal) → String → Option JVal
  | [], _ => none
  | (k, v) :: rest, key => if k = key then some v else lookupField rest key

/-- `d.get(key, dflt)`: defined on dicts, `AttributeError` on anything else. -/
def pyGet (v : JVal) (key : String) (dflt : JVal) : Except PyErr JVal :=
  match v with
  | .obj fs => .ok ((lookupField fs key).getD dflt)
  | _ => .error .attrError

/-- `v[i]` for a non-negative integer index `i`. -/
def pyIndex (v : JVal) (i : Nat) : Except PyErr JVal :=
  match v with
  | .arr xs =>
    match xs.get? i with
    | some x => .ok x
    | none => .error .indexError
  | .str s =>
    match s.data.get? i with
    | some c => .ok (.str (String.mk [c]))
    | none => .error .indexError
  | .obj _ => .error .keyError
  | _ => .error .typeError

/-- Python truthiness of a value. -/
def pyTruthy : JVal → Bool
  | .null => false
  | .bool b => b
  | .num q => q ≠ 0
  | .str s => s ≠ ""
  | .arr xs => !xs.isEmpty
  | .obj fs => !fs.isEmpty

/-- Iterating a value, as in `for x in v`. -/
def pyIter (v : JVal) : Except PyErr (List JVal) :=
  match v with
  | .arr xs => .ok xs
  | .str s => .ok (s.data.map fun c => .str (String.mk [c]))
  | .obj fs => .ok (fs.map fun p => .str p.1)
  | _ => .error .typeError

/-- `len(v)`. -/
def pyLen (v : JVal) : Except PyErr Nat :=
  match v with
  | .str s => .ok s.data.length
  | .arr xs => .ok xs.length
  | .obj fs => .ok fs.length
  | _ => .error .typeError

/-- `v[:n]`. -/
def pySlice (v : JVal) (n : Nat) : Except PyErr JVal :=
  match v with
  | .str s => .ok (.str (String.mk (s.data.take n)))
  | .arr xs => .ok (.arr (xs.take n))
  | _ => .error .typeError

/-- The numeric value of a value, when Python `+` would accept it in a sum. -/
def toNumQ : JVal → Option ℚ
  | .num q => some q
  | .bool true => some 1
  | .bool false => some 0
  | _ => none

/-- `sum(vs)`, raising `TypeError` at the first non-numeric element. -/
def pySum : List JVal → Except PyErr ℚ
  | [] => .ok 0
  | v :: rest =>
    match toNumQ v with
    | some q => do
      let s ← pySum rest
      .ok (q + s)
    | none => .error .typeError

/-- Python `str(v)` as used by f-strings.  Strings pass through verbatim;
the rendering of non-string values is approximated (no claim formats a
non-string field). -/
def pyStr : JVal → String
  | .null => "None"
  | .bool true => "True"
  | .bool false => "False"
  | .num q => toString q
  | .str s => s
  | .arr _ => "[...]"
  | .obj _ => "dict"

/-- The `section_info` dict built for each retrieved chunk
(`_format_response`, loop body). -/
structure SectionInfo where
  content : JVal
  section_number : JVal
  section_title : JVal
  page_number : JVal

/-- The tool's result: the success dict of `_format_response` or the error
dict of `_handle_error`.  The source branches on the presence of the
`error` key; here the two dict shapes are the two constructors. -/
inductive AnswerResult where
  | success (query : String) (relevant_sections : List SectionInfo)
      (citations : List String) (confidence_scores : List JVal)
      (confidence_average : ℚ) (summary : String) (source : String)
  | failure (query : String) (error_message : String) (fallback : String)
      (relevant_sections : List SectionInfo) (citations : List String)

def AnswerResult.isSuccess : AnswerResult → Bool
  | .success .. => true
  | .failure .. => false

def AnswerResult.isFailure : AnswerResult → Bool
  | .success .. => false
  | .failure .. => true

def AnswerResult.relevantSections : AnswerResult → List SectionInfo
  | .success _ ss _ _ _ _ _ => ss
  | .failure _ _ _ ss _ => ss

def AnswerResult.citationList : AnswerResult → List String
  | .success _ _ cs _ _ _ _ => cs
  | .failure _ _ _ _ cs => cs

def AnswerResult.confidenceScores : AnswerResult → List JVal
  | .success _ _ _ sc _ _ _ => sc
  | .failure .. => []

def AnswerResult.confidenceAverage : AnswerResult → ℚ
  | .success _ _ _ _ avg _ _ => avg
  | .failure .. => 0

/-- The payload dict built by `_call_langflow_rag` (lines 125-140).  The
source mutates `payload["tweaks"]["Retriever"]` to add the `filter` key
when `section_filter` is truthy; here the final dict is built directly. -/
def buildPayload (query : String) (section_filter : Option String)
    (top_k : ℤ) : JVal :=
  let retrieverBase : List (String × JVal) := [("top_k", .num (top_k : ℚ))]
  let retriever :=
    match section_filter with
    | some s =>
      if s ≠ "" then
        retrieverBase ++
          [("filter", .obj [("section_number", .obj [("$eq", .str s)])])]
      else retrieverBase
    | none => retrieverBase
  .obj [("input_value", .str query), ("output_type", .str "chat"),
        ("input_type", .str "chat"),
        ("tweaks", .obj [("Retriever", .obj retriever)])]

mutual

/-- Whether the key `key` occurs anywhere in the value (any nesting level). -/
def hasKey (key : String) : JVal → Bool
  | .obj fs => hasKeyFields key fs
  | .arr xs => hasKeyElems key xs
  | _ => false

/-- Helper for `hasKey` over the fields of a dict. -/
def hasKeyFields (key : String) : List (String × JVal) → Bool
  | [] => false
  | (k, v) :: rest => k == key || hasKey key v || hasKeyFields key rest

/-- Helper for `hasKey` over the elements of an array. -/
def hasKeyElems (key : String) : List JVal → Bool
  | [] => false
  | v :: rest => hasKey key v || hasKeyElems key rest

end

/-- Field access on a dict value (no default), for stating payload shape. -/
def objField (v : JVal) (key : String) : Option JVal :=
  match v with
  | .obj fs => lookupField fs key
  | _ => none

/-- Lines 162-163: extract the inner result object from the raw response.
`outputs = raw.get("outputs", [{}])`;
`result = outputs[0].get("outputs", [{}])[0] if outputs else {}`. -/
def extractResult (raw : JVal) : Except PyErr JVal := do
  let outputs ← pyGet raw "outputs" (.arr [.obj []])
  if pyTruthy outputs then do
    let o0 ← pyIndex outputs 0
    let inner ← pyGet o0 "outputs" (.arr [.obj []])
    pyIndex inner 0
  else
    pure (.obj [])

/-- The body of the `for i, chunk in enumerate(chunks)` loop (lines
173-187) for one chunk: builds the section dict, the citation, and picks
up the similarity score. -/
def buildOne (metadata : JVal) (i : Nat) (chunk : JVal) :
    Except PyErr (SectionInfo × String × JVal) := do
  let content ← pyGet chunk "text" (.str "")
  let mi ← pyIndex metadata i
  let n ← pyGet mi "section_number" (.str "Unknown")
  let t ← pyGet mi "section_title" (.str "")
  let p ← pyGet mi "page_number" (.num 0)
  let si : SectionInfo := ⟨content, n, t, p⟩
  let citation := "Section " ++ pyStr n
  let citation := if pyTruthy t then citation ++ " (" ++ pyStr t ++ ")"
                  else citation
  let score ← pyGet chunk "similarity_score" (.num 0)
  pure (si, citation, score)

/-- The whole loop, accumulating the three parallel lists in order. -/
def formatLoop (metadata : JVal) : List JVal → Nat →
    Except PyErr (List SectionInfo × List String × List JVal)
  | [], _ => .ok ([], [], [])
  | c :: cs, i => do
    let (si, cit, score) ← buildOne metadata i c
    let (sis, cits, scores) ← formatLoop metadata cs (i + 1)
    .ok (si :: sis, cit :: cits, score :: scores)

/-- `_generate_summary` (lines 204-222). -/
def generateSummary (sections : List SectionInfo) (query : String) :
    Except PyErr String :=
  match sections with
  | [] => .ok "No relevant policy sections found for this query."
  | top :: _ => do
    let l ← pyLen top.content
    if 500 < l then do
      let sl ← pySlice top.content 500
      .ok ("Based on " ++ pyStr top.section_number ++ ": " ++ pyStr sl ++ "...")
    else
      .ok ("Based on Section " ++ pyStr top.section_number ++ ": " ++
           pyStr top.content)

/-- The `confidence.average` expression of line 198:
`sum(scores) / len(scores) if scores else 0`. -/
def computeAverage (scores : List JVal) : Except PyErr ℚ :=
  if scores.isEmpty then .ok 0
  else do
    let s ← pySum scores
    .ok (s / (scores.length : ℚ))

/-- The fixed `source` label of line 201. -/
def sourceLabel : String := "ACME Corp Procurement Policy v2.1"

/-- `_format_response` (lines 154-202). -/
def formatResponse (raw : JVal) (query : String) :
    Except PyErr AnswerResult := do
  let result ← extractResult raw
  let chunks ← pyGet result "chunks" (.arr [])
  let metadata ← pyGet result "metadata" (.arr [])
  let chunkList ← pyIter chunks
  let (sections, citations, scores) ← formatLoop metadata chunkList 0
  let summary ← generateSummary sections query
  let avg ← computeAverage scores
  pure (.success query sections citations scores avg summary sourceLabel)

/-- The fixed fallback text of `_handle_error` (lines 231-235). -/
def fallbackMessage : String :=
  "Unable to retrieve policy information dynamically. " ++
  "Please consult the policy document directly or contact " ++
  "procurement@acme.corp for assistance."

/-- `_handle_error` (lines 224-238): the error dict. -/
def handleError (errorMessage : String) (query : String) : AnswerResult :=
  .failure query errorMessage fallbackMessage [] []

/-- The outcome of the outbound HTTP call inside `_call_langflow_rag`:
either a parsed JSON body, or some raised exception (connection error,
timeout, non-2xx status, JSON decode error) with its `str(e)` text. -/
inductive RetrievalOutcome where
  | ok (raw : JVal)
  | exn (msg : String)

/-- `execute` (lines 90-115): try the retrieval plus formatting, and turn
any raised exception into `_handle_error`'s dict.  The external HTTP call
is abstracted by `outcome`; `section_filter` and `top_k` only feed the
request payload (`buildPayload`) and cannot affect which variant comes
back for a fixed outcome. -/
def execute (query : String) (section_filter : Option String) (top_k : ℤ)
    (outcome : RetrievalOutcome) : AnswerResult :=
  match outcome with
  | .exn msg => handleError msg query
  | .ok raw =>
    match formatResponse raw query with
    | .ok r => r
    | .error e => handleError e.message query

/-- A raw response of the documented shape carrying the given chunk and
metadata arrays. -/
def mkRaw (chunks metas : List JVal) : JVal :=
  .obj [("outputs", .arr [.obj [("outputs",
    .arr [.obj [("chunks", .arr chunks), ("metadata", .arr metas)]])]])]

/-- Lookup with default on a dict's field list (the pure core of `pyGet`
once the receiver is known to be a dict). -/
def getFieldD (fs : List (String × JVal)) (key : String) (d : JVal) : JVal :=
  (lookupField fs key).getD d

/-- The section dict derived from a chunk dict and its metadata dict
(loop body, lines 174-179), as a pure function of the two field lists. -/
def sectionOf (chunk meta : List (String × JVal)) : SectionInfo :=
  ⟨getFieldD chunk "text" (.str ""),
   getFieldD meta "section_number" (.str "Unknown"),
   getFieldD meta "section_title" (.str ""),
   getFieldD meta "page_number" (.num 0)⟩

/-- The citation string derived from a section (lines 182-184). -/
def citationOf (si : SectionInfo) : String :=
  let c := "Section " ++ pyStr si.section_number
  if pyTruthy si.section_title then c ++ " (" ++ pyStr si.section_title ++ ")"
  else c

/-- The similarity score picked from a chunk dict (line 187). -/
def scoreOf (chunk : List (String × JVal)) : JVal :=
  getFieldD chunk "similarity_score" (.num 0)

/-- A chunk dict whose `text` field (after the default) is a string, so
that the summary's `len`/slicing cannot raise on it. -/
def textOk (chunk : List (String × JVal)) : Bool :=
  match getFieldD chunk "text" (.str "") with
  | .str _ => true
  | _ => false

/-- A chunk dict whose similarity score (after the default) is numeric, so
that `sum` cannot raise on it. -/
def scoreOk (chunk : List (String × JVal)) : Bool :=
  (toNumQ (scoreOf chunk)).isSome

/-- The rational sum of a score list (each score read through `toNumQ`). -/
def sumScores (scores : List JVal) : ℚ :=
  (scores.map fun v => (toNumQ v).getD 0).sum

/-- Sample chunk dict with text and score, for concrete instances. -/
def wChunkA : List (String × JVal) :=
  [("text", .str "alpha"), ("similarity_score", .num 1)]

/-- Sample chunk dict with text only, for concrete instances. -/
def wChunkB : List (String × JVal) :=
  [("text", .str "beta")]

/-- Sample complete metadata dict, for concrete instances. -/
def wMetaA : List (String × JVal) :=
  [("section_number", .str "3.2"), ("section_title", .str "Equipment Tiers"),
   ("page_number", .num 4)]

/-- Sample empty metadata dict, for concrete instances. -/
def wMetaB : List (String × JVal) := []

/-- One loop iteration on dict-shaped inputs whose metadata entry exists:
it returns exactly the pure section / citation / score triple. -/
theorem buildOne_eq (mv : List JVal) (i : Nat) (m c : List (String × JVal))
    (h : mv.get? i = some (.obj m)) :
    buildOne (.arr mv) i (.obj c) =
      .ok (sectionOf c m, citationOf (sectionOf c m), scoreOf c) := by
  simp only [buildOne, pyGet, pyIndex, h, sectionOf, citationOf, scoreOf,
    getFieldD, bind, Except.bind, pure, Except.pure]

/-- Extraction on a response of the documented shape. -/
theorem extractResult_mkRaw (cs ms : List JVal) :
    extractResult (mkRaw cs ms) =
      .ok (.obj [("chunks", .arr cs), ("metadata", .arr ms)]) := rfl

/-- `_format_response` on a response of the documented shape reduces to the
loop followed by the summary and the average. -/
theorem formatResponse_mkRaw (cs ms : List JVal) (q : String) :
    formatResponse (mkRaw cs ms) q = (do
      let (sections, citations, scores) ← formatLoop (.arr ms) cs 0
      let summary ← generateSummary sections q
      let avg ← computeAverage scores
      pure (.success q sections citations scores avg summary sourceLabel)) :=
  rfl

/-- `sum` succeeds on a list of numeric scores and returns their sum. -/
theorem pySum_ok (scores : List JVal)
    (h : scores.all (fun v => (toNumQ v).isSome) = true) :
    pySum scores = .ok (sumScores scores) := by
  induction scores with
  | nil => rfl
  | cons v rest ih =>
    simp only [List.all_cons, Bool.and_eq_true] at h
    obtain ⟨hv, hrest⟩ := h
    obtain ⟨qv, hq⟩ := Option.isSome_iff_exists.mp hv
    simp only [pySum, hq, ih hrest, bind, Except.bind, sumScores,
      List.map_cons, List.sum_cons, hq, Option.getD_some]

/-- The loop on dict-shaped chunk and metadata lists: when the metadata
array is long enough, it succeeds and returns the zip of `sectionOf`, its
citations, and the scores, all in input order. -/
theorem formatLoop_wf (metas : List (List (String × JVal))) :
    ∀ (chunks : List (List (String × JVal))) (i : Nat),
    i + chunks.length ≤ metas.length →
    formatLoop (.arr (metas.map JVal.obj)) (chunks.map JVal.obj) i =
      .ok (List.zipWith sectionOf chunks (metas.drop i),
           (List.zipWith sectionOf chunks (metas.drop i)).map citationOf,
           chunks.map scoreOf) := by
  intro chunks
  induction chunks with
  | nil => intro i h; rfl
  | cons c cs ih =>
    intro i h
    have hi : i < metas.length := by
      simp only [List.length_cons] at h; omega
    have hget : (metas.map JVal.obj).get? i = some (.obj metas[i]) := by
      rw [List.get?_eq_getElem?, List.getElem?_map, List.getElem?_eq_getElem hi]
      rfl
    have hdrop : metas.drop i = metas[i] :: metas.drop (i + 1) :=
      List.drop_eq_getElem_cons hi
    have hrec := ih (i + 1) (by simp only [List.length_cons] at h; omega)
    simp only [List.map_cons, formatLoop, buildOne_eq _ _ _ _ hget, hrec,
      bind, Except.bind, hdrop, List.zipWith_cons_cons, List.map_cons]

/-- `all` over a mapped list is `all` of the composition. -/
theorem all_map_comp {α β : Type} (f : α → β) (p : β → Bool) :
    ∀ l : List α, (l.map f).all p = l.all fun a => p (f a)
  | [] => rfl
  | a :: l => by simp only [List.map_cons, List.all_cons, all_map_comp f p l]

/-- The summary never raises on sections whose first content is a string. -/
theorem generateSummary_ok (sections : List SectionInfo) (q : String)
    (h : ∀ top rest, sections = top :: rest → ∃ s, top.content = .str s) :
    ∃ t, generateSummary sections q = .ok t := by
  cases sections with
  | nil => exact ⟨_, rfl⟩
  | cons top rest =>
    obtain ⟨s, hs⟩ := h top rest rfl
    simp only [generateSummary, hs, pyLen, bind, Except.bind]
    split
    · exact ⟨_, rfl⟩
    · exact ⟨_, rfl⟩

/-- Characterization of `_format_response` on a documented-shape response
whose chunk dicts are well typed and whose metadata array is long enough:
it succeeds, and every output list is the pure order-preserving map. -/
theorem formatResponse_wf (chunks metas : List (List (String × JVal)))
    (q : String)
    (hlen : chunks.length ≤ metas.length)
    (htext : chunks.all textOk = true)
    (hscore : chunks.all scoreOk = true) :
    ∃ summary,
      generateSummary (List.zipWith sectionOf chunks metas) q = .ok summary ∧
      formatResponse (mkRaw (chunks.map .obj) (metas.map .obj)) q =
        .ok (.success q (List.zipWith sectionOf chunks metas)
          ((List.zipWith sectionOf chunks metas).map citationOf)
          (chunks.map scoreOf)
          (if chunks.isEmpty then 0
           else sumScores (chunks.map scoreOf) / (chunks.length : ℚ))
          summary sourceLabel) := by
  have hloop := formatLoop_wf metas chunks 0 (by simpa using hlen)
  rw [List.drop_zero] at hloop
  have hsumexists : ∃ t,
      generateSummary (List.zipWith sectionOf chunks metas) q = .ok t := by
    apply generateSummary_ok
    intro top rest hzip
    cases chunks with
    | nil => simp at hzip
    | cons c cs =>
      cases metas with
      | nil => simp at hlen
      | cons m ms =>
        rw [List.zipWith_cons_cons] at hzip
        injection hzip with h1 h2
        have hc : textOk c = true := by
          simp only [List.all_cons, Bool.and_eq_true] at htext
          exact htext.1
        unfold textOk at hc
        rw [← h1]
        cases hcontent : getFieldD c "text" (.str "") with
        | str s => exact ⟨s, by simp [sectionOf, hcontent]⟩
        | null => rw [hcontent] at hc; simp at hc
        | bool b => rw [hcontent] at hc; simp at hc
        | num qq => rw [hcontent] at hc; simp at hc
        | arr xs => rw [hcontent] at hc; simp at hc
        | obj fs => rw [hcontent] at hc; simp at hc
  obtain ⟨summary, hsum⟩ := hsumexists
  refine ⟨summary, hsum, ?_⟩
  have havg : computeAverage (chunks.map scoreOf) =
      .ok (if chunks.isEmpty then 0
           else sumScores (chunks.map scoreOf) / (chunks.length : ℚ)) := by
    cases chunks with
    | nil => rfl
    | cons c cs =>
      have hnum : ((c :: cs).map scoreOf).all
          (fun v => (toNumQ v).isSome) = true := by
        rw [all_map_comp]
        exact hscore
      have hps := pySum_ok _ hnum
      simp only [computeAverage, List.map_cons, List.isEmpty_cons] at hps ⊢
      simp [hps, bind, Except.bind]
  rw [formatResponse_mkRaw, hloop]
  simp only [bind, Except.bind, hsum, havg, pure, Except.pure]

/-- Claim C1 as stated is false: with one chunk and an empty metadata
array (the metadata array shorter than the chunk array), the formatter
raises `IndexError` at `metadata[i]` instead of producing a `SectionInfo`
with the documented defaults. -/
theorem C1_counterexample :
    formatResponse (mkRaw [.obj [("text", .str "hello")]] []) "q" =
      .error .indexError := rfl

/-- Claim C1 (amended): when the metadata entry at index `i` exists as a
dict, a missing `section_number`, `section_title` or `page_number` field
is substituted with "Unknown", "" and 0 and the citation is exactly
"Section Unknown"; but when the metadata array is shorter than the chunk
array, `_format_response` raises `IndexError` for the unmatched chunk and
`execute` returns the error variant for the whole request. -/
theorem C1_amended_metadata_defaults (metas : List JVal)
    (meta chunk : List (String × JVal)) (i : Nat) (q : String)
    (sf : Option String) (k : ℤ)
    (hget : metas.get? i = some (.obj meta))
    (h1 : lookupField meta "section_number" = none)
    (h2 : lookupField meta "section_title" = none)
    (h3 : lookupField meta "page_number" = none) :
    buildOne (.arr metas) i (.obj chunk) =
      .ok (⟨getFieldD chunk "text" (.str ""), .str "Unknown", .str "",
            .num 0⟩,
           "Section Unknown", scoreOf chunk) ∧
    formatResponse (mkRaw [.obj chunk] []) q = .error .indexError ∧
    execute q sf k (.ok (mkRaw [.obj chunk] [])) =
      .failure q "list index out of range" fallbackMessage [] [] := by
  refine ⟨?_, rfl, rfl⟩
  rw [buildOne_eq _ _ _ _ hget]
  simp only [sectionOf, citationOf, getFieldD, h1, h2, h3, Option.getD_none]
  rfl

/-- Concrete instance of the amended C1. -/
theorem C1_amended_metadata_defaults_witness :
    buildOne (.arr [.obj []]) 0 (.obj [("text", .str "hi")]) =
      .ok (⟨.str "hi", .str "Unknown", .str "", .num 0⟩, "Section Unknown",
           .num 0) ∧
    formatResponse (mkRaw [.obj [("text", .str "hi")]] []) "q2" =
      .error .indexError ∧
    execute "q2" none 3 (.ok (mkRaw [.obj [("text", .str "hi")]] [])) =
      .failure "q2" "list index out of range" fallbackMessage [] [] :=
  C1_amended_metadata_defaults [.obj []] [] [("text", .str "hi")] 0 "q2"
    none 3 rfl rfl rfl rfl

/-- Claim C2 as stated is false: a raw response whose inner `outputs`
array is present but empty makes `_format_response` raise `IndexError`
rather than degrade to an empty chunk list. -/
theorem C2_counterexample :
    formatResponse (.obj [("outputs", .arr [.obj [("outputs", .arr [])]])])
      "policy query" = .error .indexError := rfl

/-- Claim C2 (amended): `_format_response` degrades to an empty chunk list
and a well-formed success result when the top-level `outputs` key is
missing, when the `outputs` array is empty, and when the first output
lacks an inner `outputs` key; but it is not total: an inner `outputs`
array that is present and empty makes it raise `IndexError`, which
`execute` converts to the error variant. -/
theorem C2_amended_degrade_or_raise (q : String) (sf : Option String)
    (k : ℤ) :
    formatResponse (.obj []) q = .ok (.success q [] [] [] 0
      "No relevant policy sections found for this query." sourceLabel) ∧
    formatResponse (.obj [("outputs", .arr [])]) q = .ok (.success q [] [] []
      0 "No relevant policy sections found for this query." sourceLabel) ∧
    formatResponse (.obj [("outputs", .arr [.obj []])]) q =
      .ok (.success q [] [] [] 0
        "No relevant policy sections found for this query." sourceLabel) ∧
    formatResponse (.obj [("outputs", .arr [.obj [("outputs", .arr [])]])])
      q = .error .indexError ∧
    execute q sf k
      (.ok (.obj [("outputs", .arr [.obj [("outputs", .arr [])]])])) =
      .failure q "list index out of range" fallbackMessage [] [] :=
  ⟨rfl, rfl, rfl, rfl, rfl⟩

/-- Claim C3: `execute` always returns one of the two result variants; a
raised retrieval exception, and a formatter exception, each become the
error variant with the exception text, the fixed non-empty fallback
string, and empty section and citation lists. -/
theorem C3_execute_total (q : String) (sf : Option String) (k : ℤ)
    (outcome : RetrievalOutcome) :
    ((execute q sf k outcome).isSuccess = true ∨
     (execute q sf k outcome).isFailure = true) ∧
    (∀ msg, outcome = .exn msg →
      execute q sf k outcome = .failure q msg fallbackMessage [] []) ∧
    (∀ raw e, outcome = .ok raw → formatResponse raw q = .error e →
      execute q sf k outcome = .failure q e.message fallbackMessage [] []) ∧
    fallbackMessage ≠ "" := by
  refine ⟨?_, ?_, ?_, by decide⟩
  · cases outcome with
    | exn msg => exact Or.inr rfl
    | ok raw =>
      cases h : formatResponse raw q with
      | error e =>
        exact Or.inr (by simp [execute, h, handleError, AnswerResult.isFailure])
      | ok r =>
        cases r with
        | success q2 ss cs sc av su so =>
          exact Or.inl (by simp [execute, h, AnswerResult.isSuccess])
        | failure q2 em fb ss cs =>
          exact Or.inr (by simp [execute, h, AnswerResult.isFailure])
  · rintro msg rfl
    rfl
  · rintro raw e rfl hf
    simp [execute, hf, handleError]

/-- Concrete instance of C3: a simulated transport error. -/
theorem C3_execute_total_witness :
    execute "gaming equipment?" none 3 (.exn "Connection refused") =
      .failure "gaming equipment?" "Connection refused" fallbackMessage
        [] [] ∧
    fallbackMessage ≠ "" := by
  have h := C3_execute_total "gaming equipment?" none 3
    (.exn "Connection refused")
  exact ⟨h.2.1 "Connection refused" rfl, h.2.2.2⟩

/-- Claim C4: the summary comes only from the first section: empty input
gives the fixed no-result sentence; otherwise content strictly longer
than 500 characters gives "Based on {n}: {first 500}..." and content of
at most 500 characters gives "Based on Section {n}: {content}", with the
phrasing asymmetry preserved. -/
theorem C4_summary_rule (sections : List SectionInfo) (q : String) :
    (sections = [] → generateSummary sections q =
      .ok "No relevant policy sections found for this query.") ∧
    (∀ top rest n c, sections = top :: rest → top.section_number = .str n →
      top.content = .str c →
      generateSummary sections q = .ok
        (if 500 < c.data.length
         then "Based on " ++ n ++ ": " ++ String.mk (c.data.take 500) ++ "..."
         else "Based on Section " ++ n ++ ": " ++ c)) := by
  constructor
  · rintro rfl
    rfl
  · rintro top rest n c rfl hn hc
    simp only [generateSummary, hc, hn, pyLen, pySlice, pyStr, bind,
      Except.bind]
    split <;> rfl

set_option maxRecDepth 100000 in
/-- Concrete instances of C4 at the truncation boundary: content of 501
characters is truncated to its first 500 plus "...", content of exactly
500 characters is kept whole. -/
theorem C4_summary_rule_witness :
    generateSummary [⟨.str (String.mk (List.replicate 501 'a')), .str "3.2",
      .str "", .num 0⟩] "q" =
      .ok ("Based on 3.2: " ++ String.mk (List.replicate 500 'a') ++
        "...") ∧
    generateSummary [⟨.str (String.mk (List.replicate 500 'a')), .str "3.2",
      .str "", .num 0⟩] "q" =
      .ok ("Based on Section 3.2: " ++ String.mk (List.replicate 500 'a')) := by
  constructor
  · have h := (C4_summary_rule [⟨.str (String.mk (List.replicate 501 'a')),
      .str "3.2", .str "", .num 0⟩] "q").2 _ [] "3.2"
      (String.mk (List.replicate 501 'a')) rfl rfl rfl
    rw [h]
    rfl
  · have h := (C4_summary_rule [⟨.str (String.mk (List.replicate 500 'a')),
      .str "3.2", .str "", .num 0⟩] "q").2 _ [] "3.2"
      (String.mk (List.replicate 500 'a')) rfl rfl rfl
    rw [h]
    rfl

/-- `get?` through `map`. -/
theorem get?_map_eq {α β : Type} (f : α → β) (l : List α) (i : Nat) :
    (l.map f).get? i = (l.get? i).map f := by
  rw [List.get?_eq_getElem?, List.get?_eq_getElem?, List.getElem?_map]

/-- Claim C5: on a documented-shape response of N well-typed chunks with
matching metadata, the formatted sections, citations and scores all have
length N and the entry at position i is derived from the chunk and
metadata at position i — retrieval order is preserved, nothing is
re-sorted. -/
theorem C5_order_preservation (chunks metas : List (List (String × JVal)))
    (q : String)
    (hlen : chunks.length ≤ metas.length)
    (htext : chunks.all textOk = true)
    (hscore : chunks.all scoreOk = true) :
    ∃ avg summary,
      formatResponse (mkRaw (chunks.map .obj) (metas.map .obj)) q =
        .ok (.success q (List.zipWith sectionOf chunks metas)
          ((List.zipWith sectionOf chunks metas).map citationOf)
          (chunks.map scoreOf) avg summary sourceLabel) ∧
      (List.zipWith sectionOf chunks metas).length = chunks.length ∧
      ((List.zipWith sectionOf chunks metas).map citationOf).length =
        chunks.length ∧
      (chunks.map scoreOf).length = chunks.length ∧
      (∀ i ci mi, chunks.get? i = some ci → metas.get? i = some mi →
        (List.zipWith sectionOf chunks metas).get? i =
          some (sectionOf ci mi) ∧
        ((List.zipWith sectionOf chunks metas).map citationOf).get? i =
          some (citationOf (sectionOf ci mi)) ∧
        (chunks.map scoreOf).get? i = some (scoreOf ci)) := by
  obtain ⟨summary, hsum, hfmt⟩ :=
    formatResponse_wf chunks metas q hlen htext hscore
  have hzlen : (List.zipWith sectionOf chunks metas).length =
      chunks.length := by
    rw [List.length_zipWith]
    exact Nat.min_eq_left hlen
  refine ⟨_, summary, hfmt, hzlen, ?_, ?_, ?_⟩
  · rw [List.length_map]
    exact hzlen
  · rw [List.length_map]
  · intro i ci mi hci hmi
    have h1 : (List.zipWith sectionOf chunks metas).get? i =
        some (sectionOf ci mi) := by
      rw [List.get?_zipWith', hci, hmi]
      rfl
    refine ⟨h1, ?_, ?_⟩
    · rw [get?_map_eq, h1]
      rfl
    · rw [get?_map_eq, hci]
      rfl

/-- Concrete instance of C5 on two chunks, checking length two and the
derivation of the second (index 1) entry. -/
theorem C5_order_preservation_witness :
    ∃ avg summary,
      formatResponse (mkRaw [.obj wChunkA, .obj wChunkB]
          [.obj wMetaA, .obj wMetaB]) "q5" =
        .ok (.success "q5"
          (List.zipWith sectionOf [wChunkA, wChunkB] [wMetaA, wMetaB])
          ((List.zipWith sectionOf [wChunkA, wChunkB]
            [wMetaA, wMetaB]).map citationOf)
          ([wChunkA, wChunkB].map scoreOf) avg summary sourceLabel) ∧
      (List.zipWith sectionOf [wChunkA, wChunkB] [wMetaA, wMetaB]).length
        = 2 ∧
      (List.zipWith sectionOf [wChunkA, wChunkB] [wMetaA, wMetaB]).get? 1
        = some (sectionOf wChunkB wMetaB) := by
  obtain ⟨avg, summary, hfmt, hl1, hl2, hl3, hpt⟩ :=
    C5_order_preservation [wChunkA, wChunkB] [wMetaA, wMetaB] "q5"
      (by decide) (by decide) (by decide)
  exact ⟨avg, summary, hfmt, hl1, (hpt 1 wChunkB wMetaB rfl rfl).1⟩

/-- Claim C7: on a documented-shape response with numeric scores, the
confidence average is the arithmetic mean (the Python `sum` of the score
list divided by its length) when the list is non-empty and 0 when it is
empty, with no division-error path. -/
theorem C7_confidence_average (chunks metas : List (List (String × JVal)))
    (q : String)
    (hlen : chunks.length ≤ metas.length)
    (htext : chunks.all textOk = true)
    (hscore : chunks.all scoreOk = true) :
    ∀ r, formatResponse (mkRaw (chunks.map .obj) (metas.map .obj)) q =
        .ok r →
      (r.confidenceScores = [] → r.confidenceAverage = 0) ∧
      (r.confidenceScores ≠ [] →
        pySum r.confidenceScores = .ok (sumScores r.confidenceScores) ∧
        r.confidenceAverage =
          sumScores r.confidenceScores /
            (r.confidenceScores.length : ℚ)) := by
  obtain ⟨summary, hsum, hfmt⟩ :=
    formatResponse_wf chunks metas q hlen htext hscore
  intro r hr
  rw [hfmt] at hr
  injection hr with hr
  subst hr
  simp only [AnswerResult.confidenceScores, AnswerResult.confidenceAverage]
  constructor
  · intro h0
    have hnil : chunks = [] := by
      cases chunks with
      | nil => rfl
      | cons a l => simp at h0
    subst hnil
    rfl
  · intro hne
    have hcne : ¬chunks.isEmpty = true := by
      cases chunks with
      | nil => exact absurd rfl hne
      | cons a l => simp
    have hnum : ((chunks.map scoreOf).all fun v => (toNumQ v).isSome)
        = true := by
      rw [all_map_comp]
      exact hscore
    refine ⟨pySum_ok _ hnum, ?_⟩
    rw [if_neg hcne, List.length_map]

/-- Concrete instance of C7: one chunk with score 1 gives a non-empty
score list whose average is its sum divided by its length. -/
theorem C7_confidence_average_witness :
    ∃ r, formatResponse (mkRaw [.obj wChunkA] [.obj wMetaA]) "q7" =
        .ok r ∧
      r.confidenceScores ≠ [] ∧
      pySum r.confidenceScores = .ok (sumScores r.confidenceScores) ∧
      r.confidenceAverage =
        sumScores r.confidenceScores / (r.confidenceScores.length : ℚ) := by
  obtain ⟨summary, hsum, hfmt⟩ := formatResponse_wf [wChunkA] [wMetaA] "q7"
    (by decide) (by decide) (by decide)
  have h := C7_confidence_average [wChunkA] [wMetaA] "q7"
    (by decide) (by decide) (by decide) _ hfmt
  have hne : (AnswerResult.success "q7"
      (List.zipWith sectionOf [wChunkA] [wMetaA])
      ((List.zipWith sectionOf [wChunkA] [wMetaA]).map citationOf)
      ([wChunkA].map scoreOf)
      (if ([wChunkA] : List (List (String × JVal))).isEmpty then 0
       else sumScores ([wChunkA].map scoreOf) /
         (([wChunkA] : List (List (String × JVal))).length : ℚ))
      summary sourceLabel).confidenceScores ≠ [] := by
    simp [AnswerResult.confidenceScores]
  exact ⟨_, hfmt, hne, (h.2 hne).1, (h.2 hne).2⟩

/-- Claim C8: the citation of a section is "Section {n}" when the title
is empty and "Section {n} ({title})" when it is non-empty, and on a
documented-shape response the citation list is exactly the section list
mapped through that rule, position by position. -/
theorem C8_citation_format :
    (∀ (si : SectionInfo) (n t : String), si.section_number = .str n →
      si.section_title = .str t →
      citationOf si = if t = "" then "Section " ++ n
                      else "Section " ++ n ++ " (" ++ t ++ ")") ∧
    (∀ (chunks metas : List (List (String × JVal))) (q : String),
      chunks.length ≤ metas.length → chunks.all textOk = true →
      chunks.all scoreOk = true →
      ∀ r, formatResponse (mkRaw (chunks.map .obj) (metas.map .obj)) q =
          .ok r →
        r.citationList = r.relevantSections.map citationOf) := by
  constructor
  · intro si n t hn ht
    by_cases h : t = ""
    · simp [citationOf, hn, ht, pyStr, pyTruthy, h]
    · simp [citationOf, hn, ht, pyStr, pyTruthy, h]
  · intro chunks metas q hlen htext hscore r hr
    obtain ⟨summary, hsum, hfmt⟩ :=
      formatResponse_wf chunks metas q hlen htext hscore
    rw [hfmt] at hr
    injection hr with hr
    subst hr
    rfl

/-- Concrete instances of C8: title "Equipment Tiers" and empty title,
plus the position-by-position citation list on a two-chunk response. -/
theorem C8_citation_format_witness :
    citationOf ⟨.str "body", .str "3.2", .str "Equipment Tiers", .num 4⟩ =
      "Section 3.2 (Equipment Tiers)" ∧
    citationOf ⟨.str "body", .str "3.2", .str "", .num 4⟩ =
      "Section 3.2" ∧
    (∃ r, formatResponse (mkRaw [.obj wChunkA, .obj wChunkB]
          [.obj wMetaA, .obj wMetaB]) "q8" = .ok r ∧
      r.citationList = r.relevantSections.map citationOf) := by
  refine ⟨?_, ?_, ?_⟩
  · have h := C8_citation_format.1
      ⟨.str "body", .str "3.2", .str "Equipment Tiers", .num 4⟩
      "3.2" "Equipment Tiers" rfl rfl
    rw [h]
    rfl
  · have h := C8_citation_format.1 ⟨.str "body", .str "3.2", .str "", .num 4⟩
      "3.2" "" rfl rfl
    rw [h]
    rfl
  · obtain ⟨summary, hsum, hfmt⟩ := formatResponse_wf [wChunkA, wChunkB]
      [wMetaA, wMetaB] "q8" (by decide) (by decide) (by decide)
    exact ⟨_, hfmt, C8_citation_format.2 [wChunkA, wChunkB]
      [wMetaA, wMetaB] "q8" (by decide) (by decide) (by decide) _ hfmt⟩

/-- Claim C6: the request payload contains no `filter` key anywhere when
`section_filter` is absent; when a non-empty filter value is given,
`tweaks.Retriever.filter` is exactly the equality constraint on
`section_number`. -/
theorem C6_filter_payload (q : String) (k : ℤ) :
    hasKey "filter" (buildPayload q none k) = false ∧
    (∀ s : String, s ≠ "" →
      Option.bind (objField (buildPayload q (some s) k) "tweaks")
        (fun t => Option.bind (objField t "Retriever")
          (fun r => objField r "filter")) =
        some (.obj [("section_number", .obj [("$eq", .str s)])])) := by
  refine ⟨rfl, ?_⟩
  intro s hs
  simp only [buildPayload, if_pos hs]
  rfl

/-- Concrete instance of C6 with the filter value "3.2". -/
theorem C6_filter_payload_witness :
    hasKey "filter" (buildPayload "What is the limit?" none 3) = false ∧
    Option.bind
      (objField (buildPayload "What is the limit?" (some "3.2") 3) "tweaks")
      (fun t => Option.bind (objField t "Retriever")
        (fun r => objField r "filter")) =
      some (.obj [("section_number", .obj [("$eq", .str "3.2")])]) := by
  have h := C6_filter_payload "What is the limit?" 3
  exact ⟨h.1, h.2 "3.2" (by decide)⟩

/-- Claim C9: an empty-string `section_filter` is treated as absent by
the truthiness test, so the payload is identical to the no-filter payload
and carries no `filter` key. -/
theorem C9_empty_filter_as_absent (q : String) (k : ℤ) :
    buildPayload q (some "") k = buildPayload q none k ∧
    hasKey "filter" (buildPayload q (some "") k) = false :=
  ⟨rfl, rfl⟩

/-- Claim C10: a chunk dict without a `text` field yields a section whose
content is the empty string, and as first section it yields the summary
"Based on Section {n}: " with empty content, with no failure. -/
theorem C10_missing_text_default (chunk meta : List (String × JVal))
    (n q : String) (rest : List SectionInfo)
    (htext : lookupField chunk "text" = none)
    (hn : getFieldD meta "section_number" (.str "Unknown") = .str n) :
    (sectionOf chunk meta).content = .str "" ∧
    generateSummary (sectionOf chunk meta :: rest) q =
      .ok ("Based on Section " ++ n ++ ": ") := by
  have hcontent : (sectionOf chunk meta).content = .str "" := by
    simp [sectionOf, getFieldD, htext]
  refine ⟨hcontent, ?_⟩
  have hnum : (sectionOf chunk meta).section_number = .str n := hn
  simp only [generateSummary, hcontent, hnum, pyLen, pyStr, bind,
    Except.bind]
  rw [if_neg (by decide)]
  rw [String.append_empty]

/-- Concrete instance of C10: a chunk carrying only a score. -/
theorem C10_missing_text_default_witness :
    (sectionOf [("similarity_score", .num 1)]
      [("section_number", .str "5")]).content = .str "" ∧
    generateSummary
      [sectionOf [("similarity_score", .num 1)] [("section_number", .str "5")]]
      "q10" = .ok ("Based on Section 5: ") :=
  C10_missing_text_default [("similarity_score", .num 1)]
    [("section_number", .str "5")] "5" "q10" [] rfl rfl

end SpendGuard
